import Mathlib

/-
  Verification development for the Heat Exchanger Performance Calculator
  (src/app.py, a single Streamlit script).

  Modelling conventions:
  * Python floats are modelled by real numbers (ℝ).  All temperatures,
    flow rates and heat capacities in the script are plain Python floats.
  * Python float division `x / y` raises `ZeroDivisionError` when the
    divisor is exactly zero; this is modelled by `pydiv` returning
    `Except PyErr ℝ`.  In the script the division
    `(delta_T1 - delta_T2) / np.log(...)` has a NumPy scalar divisor
    (`np.log` returns `np.float64`), and NumPy scalar division does not
    raise, so that one division is modelled as total real division.
  * `np.log` is modelled by `Real.log`.  For non-positive arguments NumPy
    returns NaN (or -inf at 0) with a warning while `Real.log` returns the
    junk value 0; no claim below depends on the value in that regime.
  * An uncaught exception in the script aborts the evaluation: Streamlit
    shows an error page and none of the `st.success` results nor the chart
    are rendered.  This is the `AppOutput.errorPage` outcome.
-/

/-- Unit selector for temperature fields (`unit_temp` radio: "°C" | "°F"). -/
inductive TempUnit where
  | celsius
  | fahrenheit
deriving DecidableEq, Repr

/-- Unit selector for mass-flow fields (`unit_mass` radio: "kg/s" | "lb/s"). -/
inductive MassUnit where
  | kgps
  | lbps
deriving DecidableEq, Repr

/-- Unit selector for specific heat (`unit_cp` radio: "kJ/kg°C" | "J/kg°C" | "BTU/lb°F"). -/
inductive CpUnit where
  | kJperKgC
  | JperKgC
  | BTUperLbF
deriving DecidableEq, Repr

/-- Embeds `to_celsius` (src/app.py line 22-23).  The script reads the unit
selector from ambient state; here it is threaded as an explicit argument. -/
noncomputable def to_celsius (u : TempUnit) (temp : ℝ) : ℝ :=
  match u with
  | .fahrenheit => (temp - 32) * 5 / 9
  | .celsius => temp

/-- Embeds `to_kg` (src/app.py line 25-26). -/
noncomputable def to_kg (u : MassUnit) (mass : ℝ) : ℝ :=
  match u with
  | .lbps => mass * 0.453592
  | .kgps => mass

/-- Embeds `to_kj_per_kgC` (src/app.py line 28-33). -/
noncomputable def to_kj_per_kgC (u : CpUnit) (cp : ℝ) : ℝ :=
  match u with
  | .JperKgC => cp / 1000
  | .BTUperLbF => cp * 4.1868
  | .kJperKgC => cp

/-- Inverse Fahrenheit conversion.  Modelled from the spec: §8 speaks of
"converting a Fahrenheit value to Celsius and back (inverse formula)"; the
script itself has no inverse, so the inverse is the algebraic one. -/
noncomputable def from_celsius (c : ℝ) : ℝ :=
  c * 9 / 5 + 32

/-- Python exceptions that the arithmetic in the script can raise. -/
inductive PyErr where
  | zeroDivision
deriving DecidableEq, Repr

/-- Python float division: `x / y` raises `ZeroDivisionError` when `y` is
exactly zero, otherwise returns the quotient.  (Unlike NumPy scalar
division, which returns inf/NaN instead of raising.) -/
noncomputable def pydiv (x y : ℝ) : Except PyErr ℝ :=
  if y = 0 then .error .zeroDivision else .ok (x / y)

/-- The derived quantities of one successful evaluation
(src/app.py lines 77-86). -/
structure ThermalResult where
  Q_hot : ℝ
  Q_cold : ℝ
  Q_avg : ℝ
  LMTD : ℝ
  C_min : ℝ
  effectiveness : ℝ

/-- Embeds src/app.py line 83:
`LMTD = (delta_T1 - delta_T2) / np.log(delta_T1 / delta_T2) if delta_T1 != delta_T2 else delta_T1`.
The inner quotient `delta_T1 / delta_T2` is Python float division (raises on
`delta_T2 = 0`); the outer division has a NumPy divisor and is total. -/
noncomputable def LMTD_calc (dT1 dT2 : ℝ) : Except PyErr ℝ :=
  if dT1 = dT2 then .ok dT1
  else
    match pydiv dT1 dT2 with
    | .error e => .error e
    | .ok ratio => .ok ((dT1 - dT2) / Real.log ratio)

/-- Embeds the body of the `if inputs_filled:` branch, src/app.py lines
77-86: the straight-line computation of all derived quantities, with Python
exception propagation.  `U` and `A` are read by the gate but never used
here, exactly as in the script. -/
noncomputable def solve (Th_in Th_out m_hot Tc_in Tc_out m_cold Cp : ℝ) :
    Except PyErr ThermalResult :=
  let Q_hot := m_hot * Cp * (Th_in - Th_out)
  let Q_cold := m_cold * Cp * (Tc_out - Tc_in)
  let Q_avg := (Q_hot + Q_cold) / 2
  let dT1 := Th_in - Tc_out
  let dT2 := Th_out - Tc_in
  match LMTD_calc dT1 dT2 with
  | .error e => .error e
  | .ok lmtd =>
    let C_min := min (m_hot * Cp) (m_cold * Cp)
    match pydiv Q_avg (C_min * (Th_in - Tc_in)) with
    | .error e => .error e
    | .ok eff => .ok ⟨Q_hot, Q_cold, Q_avg, lmtd, C_min, eff⟩

/-- Embeds src/app.py lines 95-97: the two-point temperature profile.
Each sample is (position, hot temperature, cold temperature). -/
noncomputable def profilePoints (Th_in Th_out Tc_in Tc_out : ℝ) : List (ℝ × ℝ × ℝ) :=
  [(0, Th_in, Tc_in), (1, Th_out, Tc_out)]

/-- The nine parsed-and-normalized field values of src/app.py lines 58-68
(`None` for a field that failed `to_float`). -/
structure Inputs where
  Th_in : Option ℝ
  Th_out : Option ℝ
  m_hot : Option ℝ
  Tc_in : Option ℝ
  Tc_out : Option ℝ
  m_cold : Option ℝ
  Cp : Option ℝ
  U : Option ℝ
  A : Option ℝ

/-- Embeds src/app.py line 71:
`inputs_filled = all(x is not None for x in [Th_in, Th_out, m_hot, Tc_in, Tc_out, m_cold, Cp, U, A])`. -/
def inputs_filled (i : Inputs) : Bool :=
  i.Th_in.isSome && i.Th_out.isSome && i.m_hot.isSome && i.Tc_in.isSome &&
  i.Tc_out.isSome && i.m_cold.isSome && i.Cp.isSome && i.U.isSome && i.A.isSome

/-- What one evaluation of the script displays. -/
inductive AppOutput where
  | info
  | errorPage (e : PyErr)
  | results (r : ThermalResult) (profile : List (ℝ × ℝ × ℝ))

/-- Embeds the display logic of src/app.py lines 73-121: if all nine parsed
values are present, run the solver and show the results and the chart
(or, on an uncaught exception, the Streamlit error page); otherwise show the
single `st.info` message. -/
noncomputable def app (i : Inputs) : AppOutput :=
  match i.Th_in, i.Th_out, i.m_hot, i.Tc_in, i.Tc_out, i.m_cold, i.Cp, i.U, i.A with
  | some th_in, some th_out, some mh, some tc_in, some tc_out, some mc, some cp,
      some _, some _ =>
    match solve th_in th_out mh tc_in tc_out mc cp with
    | .ok r => .results r (profilePoints th_in th_out tc_in tc_out)
    | .error e => .errorPage e
  | _, _, _, _, _, _, _, _, _ => .info

/-- Result of Python `float(...)`: a finite value, a signed infinity, or NaN
(`float` also accepts the spellings "inf", "infinity" and "nan"). -/
inductive PyVal where
  | num (q : ℚ)
  | inf
  | ninf
  | nan
deriving DecidableEq, Repr

/-- Characters stripped by `float` around the literal (ASCII whitespace;
CPython also strips non-ASCII Unicode whitespace, outside this model). -/
def isPySpace (c : Char) : Bool :=
  c = ' ' || c = '\t' || c = '\n' || c = '\r' || c = '\x0b' || c = '\x0c'

/-- Strip leading and trailing whitespace from a character list. -/
def stripChars (l : List Char) : List Char :=
  ((l.dropWhile isPySpace).reverse.dropWhile isPySpace).reverse

/-- A nonempty ASCII digit run, possibly with PEP 515 underscores strictly
between digits, after its first character. -/
def digitsURest : List Char → Bool
  | [] => true
  | '_' :: c :: r => c.isDigit && digitsURest r
  | ['_'] => false
  | c :: r => c.isDigit && digitsURest r

/-- A nonempty ASCII digit run with underscores strictly between digits
(the digit-run grammar of `float` in CPython). -/
def digitsU : List Char → Bool
  | [] => false
  | c :: r => c.isDigit && digitsURest r

/-- Numeric value of a digit run (underscores already removed). -/
def digitsVal (l : List Char) : ℕ :=
  l.foldl (fun a c => 10 * a + (c.toNat - 48)) 0

/-- Parse a plain digit run (with optional underscores) to its value. -/
def parseDigits (l : List Char) : Option ℕ :=
  if digitsU l then some (digitsVal (l.filter fun c => c ≠ '_')) else none

/-- Split a list at the first character satisfying `p`; returns the prefix
and, when a split character was found, the remainder after it. -/
def splitOnFirst (p : Char → Bool) : List Char → List Char × Option (List Char)
  | [] => ([], none)
  | c :: cs =>
    if p c then ([], some cs)
    else
      let (a, b) := splitOnFirst p cs
      (c :: a, b)

/-- Parse the unsigned mantissa of a float literal: `digits`, `digits.`,
`digits.digits` or `.digits`. -/
def parseMantissa (l : List Char) : Option ℚ :=
  let (ip, rest) := splitOnFirst (fun c => c = '.') l
  match rest with
  | none => (parseDigits ip).map fun n => (n : ℚ)
  | some fp =>
    if (ip.isEmpty || digitsU ip) && (fp.isEmpty || digitsU fp) &&
        !(ip.isEmpty && fp.isEmpty) then
      let fpd := fp.filter fun c => c ≠ '_'
      some ((digitsVal (ip.filter fun c => c ≠ '_') : ℚ) +
        (digitsVal fpd : ℚ) / 10 ^ fpd.length)
    else none

/-- Parse an (optionally signed) exponent digit run. -/
def parseExp (l : List Char) : Option ℤ :=
  match l with
  | '+' :: r => (parseDigits r).map fun n => (n : ℤ)
  | '-' :: r => (parseDigits r).map fun n => -(n : ℤ)
  | r => (parseDigits r).map fun n => (n : ℤ)

/-- Parse an unsigned decimal float literal: mantissa with an optional
`e`/`E` exponent. -/
def parseNumber (l : List Char) : Option ℚ :=
  let (m, e) := splitOnFirst (fun c => c = 'e' || c = 'E') l
  match e with
  | none => parseMantissa m
  | some ex =>
    match parseMantissa m, parseExp ex with
    | some q, some z => some (q * 10 ^ z)
    | _, _ => none

/-- The special spellings `float` accepts besides decimal literals:
"inf", "infinity" and "nan", case-insensitively. -/
def parseSpecialBody (l : List Char) : Option PyVal :=
  let w := l.map Char.toLower
  if w = "inf".data || w = "infinity".data then some .inf
  else if w = "nan".data then some .nan
  else none

/-- Negate a Python float value (`-nan` is still NaN). -/
def negVal : PyVal → PyVal
  | .num q => .num (-q)
  | .inf => .ninf
  | .ninf => .inf
  | .nan => .nan

/-- Split an optional leading sign off the literal body; returns whether the
value is negated and the remaining body. -/
def splitSign (l : List Char) : Bool × List Char :=
  match l with
  | '+' :: r => (false, r)
  | '-' :: r => (true, r)
  | r => (false, r)

/-- Parse the unsigned body of a float literal: a special spelling or a
decimal number. -/
def parseBody (l : List Char) : Option PyVal :=
  match parseSpecialBody l with
  | some v => some v
  | none => (parseNumber l).map PyVal.num

/-- Embeds `to_float` (src/app.py lines 52-56): `float(val)` wrapped in
`try`/`except`, so a string `float` rejects yields `None` instead of an
exception.  The model covers the grammar of `float` on ASCII strings: optional
surrounding whitespace, optional sign, then a decimal literal (digit runs
with optional PEP 515 underscores, optional fraction and exponent) or one
of the special spellings inf/infinity/nan.  CPython additionally accepts
non-ASCII decimal digits and whitespace, which are outside this model. -/
def to_float (s : String) : Option PyVal :=
  let l := stripChars s.data
  let (n, b) := splitSign l
  (parseBody b).map fun v => if n then negVal v else v

/-- The notion of "a valid decimal number" used by the spec: an optionally
signed decimal literal, ignoring surrounding whitespace — the grammar of
`float` minus
the special spellings inf/infinity/nan. -/
def isDecimalLiteral (s : String) : Bool :=
  (parseNumber (splitSign (stripChars s.data)).2).isSome

/-- Whether the string is one of the special spellings `float` accepts
(optionally signed, case-insensitive inf/infinity/nan). -/
def isSpecialSpelling (s : String) : Bool :=
  (parseSpecialBody (splitSign (stripChars s.data)).2).isSome

/-- The thermal result of the §8 scenario of the spec
(Th_in=80, Th_out=50, m_hot=1, Tc_in=20, Tc_out=45, m_cold=1.2, Cp=4.18). -/
noncomputable def scenarioResult : ThermalResult :=
  ⟨125.4, 125.4, 125.4, (35 - 30) / Real.log (35 / 30), 4.18, 0.5⟩

/-- Evaluating the solver on the §8 scenario succeeds with `scenarioResult`. -/
theorem solve_scenario : solve 80 50 1 20 45 1.2 4.18 = Except.ok scenarioResult := by
  simp only [solve, LMTD_calc, pydiv, scenarioResult, min_def]
  norm_num

/-- The §8 scenario inputs with arbitrary present values for U and A. -/
noncomputable def scenarioInputs : Inputs :=
  ⟨some 80, some 50, some 1, some 20, some 45, some 1.2, some 4.18, some 300, some 2⟩

/-- On the §8 scenario the script displays the results and the two-point
profile. -/
theorem app_scenario :
    app scenarioInputs = AppOutput.results scenarioResult (profilePoints 80 50 20 45) := by
  simp only [app, scenarioInputs, solve_scenario]

/-- C5: for every parsed numeric value, the unit normalizer returns: for
temperature tagged Fahrenheit, (value − 32) × 5/9, otherwise the value
unchanged; for mass flow tagged lb/s, value × 0.453592, otherwise unchanged;
for specific heat tagged J/kg°C, value / 1000, tagged BTU/lb°F,
value × 4.1868, otherwise unchanged. -/
theorem unit_conversion_formulas : ∀ v : ℝ,
    to_celsius TempUnit.fahrenheit v = (v - 32) * 5 / 9
    ∧ to_celsius TempUnit.celsius v = v
    ∧ to_kg MassUnit.lbps v = v * 0.453592
    ∧ to_kg MassUnit.kgps v = v
    ∧ to_kj_per_kgC CpUnit.JperKgC v = v / 1000
    ∧ to_kj_per_kgC CpUnit.BTUperLbF v = v * 4.1868
    ∧ to_kj_per_kgC CpUnit.kJperKgC v = v := by
  intro v
  exact ⟨rfl, rfl, rfl, rfl, rfl, rfl, rfl⟩

/-- C8: each unit conversion is invertible — applying the inverse formula to
a converted Fahrenheit, lb/s, J/kg°C or BTU/lb°F value reproduces the
original (exactly, in the real-number model, hence within any tolerance) —
and an input of 176 tagged °F normalizes to exactly 80 °C. -/
theorem unit_conversion_roundtrip : ∀ v : ℝ,
    from_celsius (to_celsius TempUnit.fahrenheit v) = v
    ∧ to_celsius TempUnit.fahrenheit (from_celsius v) = v
    ∧ to_kg MassUnit.lbps v / 0.453592 = v
    ∧ to_kj_per_kgC CpUnit.JperKgC v * 1000 = v
    ∧ to_kj_per_kgC CpUnit.BTUperLbF v / 4.1868 = v
    ∧ to_celsius TempUnit.fahrenheit 176 = 80 := by
  intro v
  refine ⟨?_, ?_, ?_, ?_, ?_, ?_⟩ <;>
    simp only [to_celsius, from_celsius, to_kg, to_kj_per_kgC] <;> norm_num

/-- C7: on the §8 inputs (Th_in=80, Th_out=50, m_hot=1, Tc_in=20, Tc_out=45,
m_cold=1.2, Cp=4.18, U and A present) the solver computes Q_hot = 125.4,
Q_cold = 125.4 and Q_avg = (Q_hot + Q_cold) / 2 = 125.4. -/
theorem energy_balance_scenario :
    solve 80 50 1 20 45 1.2 4.18 = Except.ok scenarioResult
    ∧ app scenarioInputs = AppOutput.results scenarioResult (profilePoints 80 50 20 45)
    ∧ scenarioResult.Q_hot = 125.4
    ∧ scenarioResult.Q_cold = 125.4
    ∧ scenarioResult.Q_avg = (scenarioResult.Q_hot + scenarioResult.Q_cold) / 2
    ∧ scenarioResult.Q_avg = 125.4 := by
  refine ⟨solve_scenario, app_scenario, rfl, rfl, ?_, rfl⟩
  norm_num [scenarioResult]

/-- A successful `LMTD_calc` took either the equal-deltas branch or the
logarithmic branch. -/
theorem lmtd_ok_cases (dT1 dT2 l : ℝ) (h : LMTD_calc dT1 dT2 = .ok l) :
    (dT1 = dT2 → l = dT1)
    ∧ (dT1 ≠ dT2 → l = (dT1 - dT2) / Real.log (dT1 / dT2)) := by
  by_cases he : dT1 = dT2
  · rw [LMTD_calc, if_pos he] at h
    injection h with h
    exact ⟨fun _ => h.symm, fun hn => absurd he hn⟩
  · rw [LMTD_calc, if_neg he] at h
    by_cases hz : dT2 = 0
    · rw [pydiv, if_pos hz] at h
      exact absurd h (by simp)
    · rw [pydiv, if_neg hz] at h
      simp only at h
      injection h with h
      exact ⟨fun hc => absurd hc he, fun _ => h.symm⟩

/-- A successful solver run relates every field of the result to the input
quantities exactly as the straight-line code does. -/
theorem solve_ok_fields (Th_in Th_out m_hot Tc_in Tc_out m_cold Cp : ℝ)
    (r : ThermalResult)
    (h : solve Th_in Th_out m_hot Tc_in Tc_out m_cold Cp = .ok r) :
    r.Q_hot = m_hot * Cp * (Th_in - Th_out)
    ∧ r.Q_cold = m_cold * Cp * (Tc_out - Tc_in)
    ∧ r.Q_avg = (r.Q_hot + r.Q_cold) / 2
    ∧ r.C_min = min (m_hot * Cp) (m_cold * Cp)
    ∧ LMTD_calc (Th_in - Tc_out) (Th_out - Tc_in) = .ok r.LMTD
    ∧ r.effectiveness = r.Q_avg / (r.C_min * (Th_in - Tc_in)) := by
  simp only [solve] at h
  cases hL : LMTD_calc (Th_in - Tc_out) (Th_out - Tc_in) with
  | error e =>
    rw [hL] at h
    exact absurd h (by simp)
  | ok l =>
    rw [hL] at h
    simp only [pydiv] at h
    by_cases hz :
        min (m_hot * Cp) (m_cold * Cp) * (Th_in - Tc_in) = 0
    · rw [if_pos hz] at h
      exact absurd h (by simp)
    · rw [if_neg hz] at h
      injection h with h
      subst h
      exact ⟨rfl, rfl, rfl, rfl, rfl, rfl⟩

/-- C3: whenever the solver completes, LMTD equals
(ΔT1 − ΔT2) / ln(ΔT1 / ΔT2) when ΔT1 ≠ ΔT2, and equals ΔT1 when ΔT1 = ΔT2,
with ΔT1 = T_hot_in − T_cold_out and ΔT2 = T_hot_out − T_cold_in. -/
theorem lmtd_piecewise_formula :
    ∀ (Th_in Th_out m_hot Tc_in Tc_out m_cold Cp : ℝ) (r : ThermalResult),
    solve Th_in Th_out m_hot Tc_in Tc_out m_cold Cp = Except.ok r →
    (Th_in - Tc_out = Th_out - Tc_in → r.LMTD = Th_in - Tc_out)
    ∧ (Th_in - Tc_out ≠ Th_out - Tc_in →
        r.LMTD = ((Th_in - Tc_out) - (Th_out - Tc_in)) /
          Real.log ((Th_in - Tc_out) / (Th_out - Tc_in))) := by
  intro Th_in Th_out m_hot Tc_in Tc_out m_cold Cp r h
  have hf := solve_ok_fields Th_in Th_out m_hot Tc_in Tc_out m_cold Cp r h
  exact lmtd_ok_cases _ _ _ hf.2.2.2.2.1

/-- Witness for C3 at the §8 scenario, where ΔT1 = 35 and ΔT2 = 30. -/
theorem lmtd_piecewise_formula_witness :
    scenarioResult.LMTD =
      ((80 - 45) - (50 - 20)) / Real.log ((80 - 45) / ((50 : ℝ) - 20)) :=
  (lmtd_piecewise_formula 80 50 1 20 45 1.2 4.18 scenarioResult solve_scenario).2
    (by norm_num)

/-- C6: whenever the solver completes, effectiveness equals
Q_avg / (C_min × (T_hot_in − T_cold_in)) with
C_min = min(m_hot × Cp, m_cold × Cp); on the §8 scenario the computed
effectiveness is 0.50 within ±0.01. -/
theorem effectiveness_formula_and_scenario :
    (∀ (Th_in Th_out m_hot Tc_in Tc_out m_cold Cp : ℝ) (r : ThermalResult),
      solve Th_in Th_out m_hot Tc_in Tc_out m_cold Cp = Except.ok r →
      r.C_min = min (m_hot * Cp) (m_cold * Cp)
      ∧ r.effectiveness = r.Q_avg / (r.C_min * (Th_in - Tc_in)))
    ∧ solve 80 50 1 20 45 1.2 4.18 = Except.ok scenarioResult
    ∧ |scenarioResult.effectiveness - 0.5| ≤ 0.01 := by
  refine ⟨?_, solve_scenario, ?_⟩
  · intro Th_in Th_out m_hot Tc_in Tc_out m_cold Cp r h
    have hf := solve_ok_fields Th_in Th_out m_hot Tc_in Tc_out m_cold Cp r h
    exact ⟨hf.2.2.2.1, hf.2.2.2.2.2⟩
  · norm_num [scenarioResult]

/-- Witness for C6 at the §8 scenario. -/
theorem effectiveness_formula_and_scenario_witness :
    scenarioResult.C_min = min (1 * 4.18) (1.2 * 4.18)
    ∧ scenarioResult.effectiveness =
        scenarioResult.Q_avg / (scenarioResult.C_min * (80 - 20)) :=
  effectiveness_formula_and_scenario.1 80 50 1 20 45 1.2 4.18 scenarioResult
    solve_scenario

/-- C9: whenever the script displays results, the profile consists of
exactly two ordered samples — position 0 carrying the hot and cold inlet
temperatures and position 1 carrying the hot and cold outlet temperatures —
with the boundary temperatures passed through unchanged. -/
theorem profile_two_point_passthrough :
    ∀ (Th_in Th_out m_hot Tc_in Tc_out m_cold Cp u a : ℝ)
      (r : ThermalResult) (p : List (ℝ × ℝ × ℝ)),
    app ⟨some Th_in, some Th_out, some m_hot, some Tc_in, some Tc_out,
        some m_cold, some Cp, some u, some a⟩ = AppOutput.results r p →
    p.length = 2 ∧ p = [(0, Th_in, Tc_in), (1, Th_out, Tc_out)] := by
  intro Th_in Th_out m_hot Tc_in Tc_out m_cold Cp u a r p h
  simp only [app] at h
  cases hs : solve Th_in Th_out m_hot Tc_in Tc_out m_cold Cp <;> rw [hs] at h
  · simp at h
  · simp only [AppOutput.results.injEq] at h
    rw [← h.2]
    exact ⟨rfl, rfl⟩

/-- Witness for C9 at the §8 scenario. -/
theorem profile_two_point_passthrough_witness :
    (profilePoints 80 50 20 45).length = 2
    ∧ profilePoints 80 50 20 45 =
        [((0 : ℝ), (80 : ℝ), (20 : ℝ)), ((1 : ℝ), (50 : ℝ), (45 : ℝ))] :=
  profile_two_point_passthrough 80 50 1 20 45 1.2 4.18 300 2 scenarioResult
    (profilePoints 80 50 20 45) app_scenario

/-- C10: U and A must be present for the completeness gate to pass, but once
they parse, their numeric values change none of the displayed outputs: two
evaluations differing only in the parsed values of U and A display exactly
the same results and profile. -/
theorem overall_U_A_do_not_affect_outputs :
    ∀ (t1 t2 m1 t3 t4 m2 c u a u2 a2 : ℝ) (ou oa : Option ℝ),
    app ⟨some t1, some t2, some m1, some t3, some t4, some m2, some c, some u, some a⟩
      = app ⟨some t1, some t2, some m1, some t3, some t4, some m2, some c, some u2, some a2⟩
    ∧ inputs_filled ⟨some t1, some t2, some m1, some t3, some t4, some m2, some c, none, oa⟩ = false
    ∧ app ⟨some t1, some t2, some m1, some t3, some t4, some m2, some c, none, oa⟩ = AppOutput.info
    ∧ inputs_filled ⟨some t1, some t2, some m1, some t3, some t4, some m2, some c, ou, none⟩ = false
    ∧ app ⟨some t1, some t2, some m1, some t3, some t4, some m2, some c, ou, none⟩ = AppOutput.info := by
  intro t1 t2 m1 t3 t4 m2 c u a u2 a2 ou oa
  refine ⟨rfl, ?_, ?_, ?_, ?_⟩
  · simp [inputs_filled]
  · cases oa <;> rfl
  · simp [inputs_filled]
  · cases ou <;> rfl

/-- A complete input set with T_hot_in = T_cold_in, making the effectiveness
denominator C_min × (T_hot_in − T_cold_in) exactly zero. -/
noncomputable def cexInput1 : Inputs :=
  ⟨some 30, some 20, some 1, some 30, some 10, some 1, some 1, some 1, some 1⟩

/-- On `cexInput1` the solver raises ZeroDivisionError in the effectiveness
division. -/
theorem solve_cex1 : solve 30 20 1 30 10 1 1 = Except.error PyErr.zeroDivision := by
  simp only [solve, LMTD_calc, pydiv, min_def]
  norm_num

/-- C1 counterexample: on a complete input set with
C_min × (T_hot_in − T_cold_in) = 0, the evaluation does not surface a
non-finite effectiveness — the Python float division raises
ZeroDivisionError, the evaluation aborts with an error display, and no
result is shown, contrary to the claim. -/
theorem effectiveness_zero_denominator_cex :
    inputs_filled cexInput1 = true
    ∧ min (1 * 1) (1 * 1) * ((30 : ℝ) - 30) = 0
    ∧ app cexInput1 = AppOutput.errorPage PyErr.zeroDivision
    ∧ ∀ r p, app cexInput1 ≠ AppOutput.results r p := by
  have happ : app cexInput1 = AppOutput.errorPage PyErr.zeroDivision := by
    simp only [app, cexInput1, solve_cex1]
  refine ⟨rfl, by norm_num, happ, ?_⟩
  intro r p
  rw [happ]
  simp

/-- C1 (amended): for every complete input set, a zero effectiveness
denominator C_min × (T_hot_in − T_cold_in) — provided the LMTD line did not
already raise — makes the evaluation abort with ZeroDivisionError; the same
holds for a zero ΔT2 denominator inside the LMTD expression when
ΔT1 ≠ ΔT2.  Python float division by zero raises instead of returning
infinity or NaN, so the degenerate cases crash the evaluation rather than
displaying non-finite output. -/
theorem zero_denominator_raises :
    ∀ (t1 t2 m1 t3 t4 m2 c u a : ℝ),
    (min (m1 * c) (m2 * c) * (t1 - t3) = 0 →
      (t1 - t4 = t2 - t3 ∨ t2 - t3 ≠ 0) →
      app ⟨some t1, some t2, some m1, some t3, some t4, some m2, some c, some u, some a⟩
        = AppOutput.errorPage PyErr.zeroDivision)
    ∧ (t2 - t3 = 0 → t1 - t4 ≠ t2 - t3 →
      app ⟨some t1, some t2, some m1, some t3, some t4, some m2, some c, some u, some a⟩
        = AppOutput.errorPage PyErr.zeroDivision) := by
  intro t1 t2 m1 t3 t4 m2 c u a
  constructor
  · intro hz hd
    have hL : ∃ l, LMTD_calc (t1 - t4) (t2 - t3) = .ok l := by
      rcases hd with heq | hne
      · exact ⟨t1 - t4, by rw [LMTD_calc, if_pos heq]⟩
      · by_cases he : t1 - t4 = t2 - t3
        · exact ⟨t1 - t4, by rw [LMTD_calc, if_pos he]⟩
        · exact ⟨_, by rw [LMTD_calc, if_neg he, pydiv, if_neg hne]⟩
    obtain ⟨l, hl⟩ := hL
    simp only [app, solve]
    rw [hl, pydiv, if_pos hz]
  · intro hz hne
    simp only [app, solve, LMTD_calc]
    rw [if_neg hne, pydiv, if_pos hz]

/-- Witness for C1 (amended) at a concrete complete input with
T_hot_in = T_cold_in = 50. -/
theorem zero_denominator_raises_witness :
    app ⟨some 50, some 40, some 1, some 50, some 30, some 1, some 1, some 1, some 1⟩
      = AppOutput.errorPage PyErr.zeroDivision :=
  (zero_denominator_raises 50 40 1 50 30 1 1 1 1).1 (by norm_num)
    (Or.inr (by norm_num))

/-- A complete input set whose nine fields all parse but whose evaluation
raises ZeroDivisionError. -/
noncomputable def cexInput2 : Inputs :=
  ⟨some 60, some 50, some 2, some 60, some 20, some 3, some 1, some 5, some 7⟩

/-- On `cexInput2` the solver raises ZeroDivisionError. -/
theorem solve_cex2 : solve 60 50 2 60 20 3 1 = Except.error PyErr.zeroDivision := by
  simp only [solve, LMTD_calc, pydiv, min_def]
  norm_num

/-- C2 counterexample: a complete, all-numeric input set for which the gate
passes and still no results and no chart are produced (the evaluation ends
on the ZeroDivisionError page), refuting "results are produced if all nine
fields parse". -/
theorem gate_pass_without_results_cex :
    inputs_filled cexInput2 = true
    ∧ app cexInput2 = AppOutput.errorPage PyErr.zeroDivision
    ∧ (∀ r p, app cexInput2 ≠ AppOutput.results r p)
    ∧ app cexInput2 ≠ AppOutput.info := by
  have happ : app cexInput2 = AppOutput.errorPage PyErr.zeroDivision := by
    simp only [app, cexInput2, solve_cex2]
  refine ⟨rfl, happ, ?_, ?_⟩
  · intro r p
    rw [happ]
    simp
  · rw [happ]
    simp

/-- C2 (amended): when any of the nine fields fails to parse, the script
emits exactly the one informational message and performs no computation;
results and the chart are only ever produced when all nine fields parse;
and when all nine parse, the evaluation yields either the results with the
chart or an uncaught ZeroDivisionError page — so "all nine parse" is
necessary but not sufficient for results to appear. -/
theorem results_iff_gate_and_no_exception :
    ∀ i : Inputs,
    (inputs_filled i = false → app i = AppOutput.info)
    ∧ ((∃ r p, app i = AppOutput.results r p) → inputs_filled i = true)
    ∧ (inputs_filled i = true →
        (∃ r p, app i = AppOutput.results r p)
        ∨ (∃ e, app i = AppOutput.errorPage e)) := by
  intro i
  obtain ⟨t1, t2, t3, t4, t5, t6, t7, t8, t9⟩ := i
  cases t1 <;> cases t2 <;> cases t3 <;> cases t4 <;> cases t5 <;> cases t6 <;>
    cases t7 <;> cases t8 <;> cases t9 <;> simp only [inputs_filled, app] <;> simp
  rename_i v1 v2 v3 v4 v5 v6 v7 v8 v9
  cases hs : solve v1 v2 v3 v4 v5 v6 v7
  · rename_i e
    simp [hs]
    exact ⟨e, trivial⟩
  · simp [hs]

/-- Witness for C2 (amended): the all-blank form shows the message, and the
gate passes on the §8 scenario inputs. -/
theorem results_iff_gate_and_no_exception_witness :
    app ⟨none, none, none, none, none, none, none, none, none⟩ = AppOutput.info
    ∧ inputs_filled scenarioInputs = true :=
  ⟨(results_iff_gate_and_no_exception ⟨none, none, none, none, none, none, none, none, none⟩).1 rfl,
    (results_iff_gate_and_no_exception scenarioInputs).2.1
      ⟨scenarioResult, profilePoints 80 50 20 45, app_scenario⟩⟩

/-- `parseSpecialBody` never yields a finite numeric value. -/
theorem parseSpecialBody_ne_num (l : List Char) (q : ℚ) :
    parseSpecialBody l ≠ some (PyVal.num q) := by
  rw [parseSpecialBody]
  split_ifs <;> simp

/-- C4 counterexample: the text "inf" is not a valid decimal number and is
not empty, yet `to_float` does not yield the missing result — Python
`float` accepts the spelling and returns a numeric (infinite) value. -/
theorem special_spelling_parses_cex :
    isDecimalLiteral "inf" = false
    ∧ "inf" ≠ ""
    ∧ to_float "inf" = some PyVal.inf
    ∧ to_float "inf" ≠ none := by
  refine ⟨by decide, by decide, by decide, by decide⟩

/-- C4 (amended): every text field value that is empty or not a valid
decimal number — and also not one of the special spellings inf/infinity/nan
that Python `float` additionally accepts — parses to the explicit missing
result `none`; and a finite numeric parse can only come from a valid
decimal literal, so no invalid field is ever coerced to zero or any other
finite number. -/
theorem invalid_literal_parses_to_none :
    (∀ s : String, isDecimalLiteral s = false → isSpecialSpelling s = false →
      to_float s = none)
    ∧ (∀ (s : String) (q : ℚ), to_float s = some (PyVal.num q) →
      isDecimalLiteral s = true) := by
  constructor
  · intro s hd hsp
    have hd2 : parseNumber (splitSign (stripChars s.data)).2 = none := by
      cases h : parseNumber (splitSign (stripChars s.data)).2
      · rfl
      · rw [isDecimalLiteral, h] at hd
        simp at hd
    have hsp2 : parseSpecialBody (splitSign (stripChars s.data)).2 = none := by
      cases h : parseSpecialBody (splitSign (stripChars s.data)).2
      · rfl
      · rw [isSpecialSpelling, h] at hsp
        simp at hsp
    rw [to_float]
    rcases hsb : splitSign (stripChars s.data) with ⟨n, b⟩
    rw [hsb] at hd2 hsp2
    simp only at hd2 hsp2
    simp [parseBody, hsp2, hd2]
  · intro s q h
    rw [to_float] at h
    rcases hsb : splitSign (stripChars s.data) with ⟨n, b⟩
    rw [hsb] at h
    simp only [parseBody] at h
    cases hp : parseSpecialBody b
    · rw [hp] at h
      cases hn : parseNumber b
      · rw [hn] at h
        simp at h
      · rw [isDecimalLiteral, hsb]
        simp [hn]
    · rw [hp] at h
      rename_i v
      cases v
      · exact absurd hp (parseSpecialBody_ne_num b _)
      · cases n <;> simp [negVal] at h
      · cases n <;> simp [negVal] at h
      · cases n <;> simp [negVal] at h

/-- Witness for C4 (amended): "abc" parses to missing, and "5" — the only
way to a finite value — is a valid decimal literal. -/
theorem invalid_literal_parses_to_none_witness :
    to_float "abc" = none ∧ isDecimalLiteral "5" = true :=
  ⟨invalid_literal_parses_to_none.1 "abc" (by decide) (by decide),
    invalid_literal_parses_to_none.2 "5" 5 (by decide)⟩
